import Mathlib

/-!
Verification of the move-ts script-function code generator
(`crates/move-ts/src/script_function.rs`).

The generator consumes an IDL description of a Move module's script
functions and emits TypeScript: a payload-args type, an entry-payload
record type, a payload-builder function per script function, and an
environment-specific wrapper class per module.

Source-translated definitions mirror `script_function.rs`.  Collaborators
that are not part of that file (the recursive type generator in
`idl_type.rs`, the text helpers in `format.rs`, the `CodeText` builder,
and the IDL model / case-convention crates) are modelled from the spec;
each such definition says so in its doc comment.
-/

namespace MoveTS

/-! ## String helpers used only in theorem statements -/

/-- Whether `pat` is a prefix of `s` (on character lists). -/
def listIsPrefix : List Char → List Char → Bool
  | [], _ => true
  | _ :: _, [] => false
  | p :: ps, c :: cs => p == c && listIsPrefix ps cs

/-- Whether `pat` occurs as a contiguous sublist of `s`. -/
def listContainsSub (pat : List Char) : List Char → Bool
  | [] => listIsPrefix pat []
  | c :: cs => listIsPrefix pat (c :: cs) || listContainsSub pat cs

/-- Whether the string `pat` occurs as a substring of `s`. -/
def occursIn (pat s : String) : Bool :=
  listContainsSub pat.data s.data

/-- The suffix of `s` following the first occurrence of `pat`, if any. -/
def suffixAfter (pat : List Char) : List Char → Option (List Char)
  | [] => if listIsPrefix pat [] then some (List.drop pat.length []) else none
  | c :: cs =>
    if listIsPrefix pat (c :: cs) then some (List.drop pat.length (c :: cs))
    else suffixAfter pat cs

/-- Whether `a` occurs in `s` and `b` occurs after the first occurrence of
`a` (so the first `a` appears before that `b`). -/
def appearsBefore (a b s : String) : Bool :=
  match suffixAfter a.data s.data with
  | some rest => listContainsSub b.data rest
  | none => false

/-! ## IDL model (external crate `move_idl`, consumed read-only).
Modelled from the spec: a closed set of type-expression variants,
argument / script-function / module records. -/

/-- Modelled from the spec: the closed set of primitive kinds of the IDL
type algebra handled by the type generator (`idl_type.rs` is not in the
translated source). -/
inductive PrimKind
  | boolK
  | u8
  | u64
  | u128
  | addressK
deriving DecidableEq, Repr

/-- Modelled from the spec: the IDL type expression — primitive, vector,
type-parameter reference, struct reference with type arguments, and
(mutable) reference. -/
inductive IDLType
  | prim (k : PrimKind)
  | vec (t : IDLType)
  | typeParam (name : String)
  | structRef (name : String) (tyArgs : List IDLType)
  | ref (isMut : Bool) (t : IDLType)

/-- An IDL function argument: name and type. -/
structure IDLArgument where
  name : String
  ty : IDLType

/-- An IDL script function: name, optional doc string, ordered arguments,
ordered type-parameter names. -/
structure IDLScriptFunction where
  name : String
  doc : Option String
  args : List IDLArgument
  ty_args : List String

/-- Modelled from the spec: the module identifier of the external IDL
model.  The source renders it two ways (`Display` in `full_name`, and
`short_str_lossless` in the builder); both renderings and the bare module
name are carried as abstract strings. -/
structure IDLModuleId where
  display : String
  shortStrLossless : String
  name : String
deriving DecidableEq, Repr

/-- An IDL module: its identifier (script functions are passed to the
generator separately, as in the source). -/
structure IDLModule where
  module_id : IDLModuleId
deriving DecidableEq, Repr

/-- Modelled from the spec: the generation context threaded through every
recursive call — the bound type-parameter names and the registered struct
names needed to resolve `typeParam` and `structRef`. -/
structure CodegenContext where
  boundTyParams : List String
  knownStructs : List String
deriving DecidableEq, Repr

/-! ## Case-convention transforms (external crate `heck`).
Modelled from the spec: a deterministic pure string transform. -/

/-- Upper-cases the first character of a word. -/
def capitalizeWord (s : String) : String :=
  match s.data with
  | [] => ""
  | c :: cs => String.mk (c.toUpper :: cs)

/-- Lower-cases the first character of a word. -/
def decapitalizeWord (s : String) : String :=
  match s.data with
  | [] => ""
  | c :: cs => String.mk (c.toLower :: cs)

/-- Splits a character list at every occurrence of `c` (the separators
are dropped; adjacent separators yield empty chunks). -/
def splitChar (c : Char) : List Char → List (List Char)
  | [] => [[]]
  | x :: xs =>
    if x = c then [] :: splitChar c xs
    else
      match splitChar c xs with
      | [] => [[x]]
      | l :: ls => (x :: l) :: ls

/-- The words of a string, split at the character `c`. -/
def splitAtChar (c : Char) (s : String) : List String :=
  (splitChar c s.data).map String.mk

/-- Modelled from the spec: PascalCase of a snake_case identifier. -/
def toPascalCase (s : String) : String :=
  String.join ((splitAtChar '_' s).map capitalizeWord)

/-- Modelled from the spec: UpperCamelCase (same as PascalCase here). -/
def toUpperCamelCase (s : String) : String :=
  toPascalCase s

/-- Modelled from the spec: lowerCamelCase of a snake_case identifier. -/
def toLowerCamelCase (s : String) : String :=
  match splitAtChar '_' s with
  | [] => ""
  | w :: ws => decapitalizeWord w ++ String.join (ws.map capitalizeWord)

/-! ## Text helpers (`format.rs` and `CodeText`, not in the translated
source).  Modelled from the spec: join, indent, wrap-as-declaration,
doc-comment attachment. -/

/-- Modelled from the spec: `gen_doc_string` renders a doc comment block
for the given text. -/
def genDocString (d : String) : String :=
  "/** " ++ d ++ " */\n"

/-- Indents one line by two spaces (empty lines stay empty). -/
def indentLine (l : String) : String :=
  if l = "" then "" else "  " ++ l

/-- Modelled from the spec: `indent` indents every line of a block. -/
def indent (s : String) : String :=
  String.intercalate "\n" ((splitAtChar '\n' s).map indentLine)

/-- Modelled from the spec: `CodeText::new_fields_export` wraps a fields
block into an exported type declaration. -/
def newFieldsExport (name fields : String) : String :=
  "export type " ++ name ++ " = \x7b\n" ++ fields ++ "\x7d;"

/-- Modelled from the spec: `CodeText::docs` prefixes generated text with
a doc comment. -/
def withDocs (d body : String) : String :=
  genDocString d ++ body

/-- Rust's `collect::<Result<Vec<_>>>`: applies `f` to each element,
short-circuiting at the first error. -/
def collectResults (f : α → Except String β) : List α → Except String (List β)
  | [] => .ok []
  | a :: as =>
    match f a with
    | .error e => .error e
    | .ok b =>
      match collectResults f as with
      | .error e => .error e
      | .ok bs => .ok (b :: bs)

/-! ## Type generator (`idl_type.rs`, not in the translated source).
Modelled from the spec (§4.1): a deterministic mapping from a type
expression to target type text, and a parallel serialization-expression
generator; unknown structs and unbound type parameters are hard errors. -/

/-- Modelled from the spec: `generate_idl_type_with_type_args` — the
recursive type-text generator.  `tyArgs` is the list of type-parameter
names in scope at this use site. -/
def generateIdlTypeWithTypeArgs (ctx : CodegenContext) (tyArgs : List String) :
    IDLType → Except String String
  | .prim .boolK => .ok "boolean"
  | .prim .u8 => .ok "number"
  | .prim .u64 => .ok "string"
  | .prim .u128 => .ok "string"
  | .prim .addressK => .ok "address"
  | .vec t =>
    match generateIdlTypeWithTypeArgs ctx tyArgs t with
    | .error e => .error e
    | .ok inner => .ok ("ReadonlyArray<" ++ inner ++ ">")
  | .typeParam n =>
    if n ∈ tyArgs then .ok n
    else .error ("unknown type parameter `" ++ n ++ "`")
  | .structRef n _ =>
    if n ∈ ctx.knownStructs then .ok n
    else .error ("unknown struct `" ++ n ++ "`")
  | .ref _ t => generateIdlTypeWithTypeArgs ctx tyArgs t

/-- Modelled from the spec: the `Codegen` impl for `IDLType` used for
payload-args fields, delegating to the recursive type generator with the
context's bound type parameters. -/
def idlTypeGenerateTS (ctx : CodegenContext) (t : IDLType) : Except String String :=
  generateIdlTypeWithTypeArgs ctx ctx.boundTyParams t

/-- Modelled from the spec: the recursive core of `serialize_arg`,
producing the wire-serialization expression for a value denoted by
`expr`.  Primitives serialize by identity or a fixed conversion; vectors
map the serializer over each element; unknown structs and unbound type
parameters fail. -/
def serializeArgCore (ctx : CodegenContext) (expr : String) :
    IDLType → Except String String
  | .prim _ => .ok expr
  | .vec t =>
    match serializeArgCore ctx "x" t with
    | .error e => .error e
    | .ok inner => .ok (expr ++ ".map((x) => " ++ inner ++ ")")
  | .typeParam n =>
    if n ∈ ctx.boundTyParams then .ok expr
    else .error ("unknown type parameter `" ++ n ++ "`")
  | .structRef n _ =>
    if n ∈ ctx.knownStructs then .ok expr
    else .error ("unknown struct `" ++ n ++ "`")
  | .ref _ t => serializeArgCore ctx expr t

/-- Modelled from the spec: `serialize_arg` — serialization-expression
generation for the value denoted by `expr`; on failure the error is
descriptive and identifies the offending expression (which the caller
roots at `args.<field>`). -/
def serializeArg (expr : String) (t : IDLType) (ctx : CodegenContext) :
    Except String String :=
  (serializeArgCore ctx expr t).mapError
    (fun e => "failed to serialize `" ++ expr ++ "`: " ++ e)

/-- Modelled from the spec: the Rust `Debug` rendering of an IDL type,
used only inside generated per-field doc comments. -/
def debugFmt : IDLType → String
  | .prim .boolK => "Bool"
  | .prim .u8 => "U8"
  | .prim .u64 => "U64"
  | .prim .u128 => "U128"
  | .prim .addressK => "Address"
  | .vec t => "Vector(" ++ debugFmt t ++ ")"
  | .typeParam n => "TypeParam(" ++ n ++ ")"
  | .structRef n _ => "Struct(" ++ n ++ ")"
  | .ref m t => (if m then "MutReference(" else "Reference(") ++ debugFmt t ++ ")"

/-! ## Script-function generator — translated from
`crates/move-ts/src/script_function.rs`. -/

/-- `ScriptFunctionType`: a script function paired with its module and the
PascalCase type name computed at construction. -/
structure ScriptFunctionType where
  type_name : String
  module : IDLModule
  script : IDLScriptFunction

/-- `ScriptFunctionType::new`: the type name is the PascalCase of the
script function's name. -/
def ScriptFunctionType.new (m : IDLModule) (s : IDLScriptFunction) :
    ScriptFunctionType :=
  ⟨toPascalCase s.name, m, s⟩

/-- `ScriptFunctionType::doc_link`. -/
def ScriptFunctionType.docLink (t : ScriptFunctionType) : String :=
  "\x7b@link entry." ++ t.script.name ++ "\x7d"

/-- `ScriptFunctionType::full_name`: `module_id::function_name` using the
module identifier's `Display` rendering. -/
def ScriptFunctionType.fullName (t : ScriptFunctionType) : String :=
  t.module.module_id.display ++ "::" ++ t.script.name

/-- `ScriptFunctionType::payload_args_type_name`. -/
def ScriptFunctionType.payloadArgsTypeName (t : ScriptFunctionType) : String :=
  t.type_name ++ "Args"

/-- `ScriptFunctionType::should_render_payload_struct`: true unless the
function has no arguments and no type parameters. -/
def ScriptFunctionType.shouldRenderPayloadStruct (t : ScriptFunctionType) : Bool :=
  !(t.script.args.isEmpty && t.script.ty_args.isEmpty)

/-- `script_fn_type_args`: one `NAME: string;` line per type parameter. -/
def scriptFnTypeArgs (args : List String) : String :=
  String.intercalate "\n" (args.map (fun a => a ++ ": string;"))

/-- The `Codegen` impl for `IDLArgument`: a doc comment holding the IDL
type's debug rendering, then `name: <type text>;`. -/
def idlArgumentGenerateTS (ctx : CodegenContext) (a : IDLArgument) :
    Except String String :=
  match idlTypeGenerateTS ctx a.ty with
  | .error e => .error e
  | .ok tyText =>
    .ok (genDocString ("IDL type: `" ++ debugFmt a.ty ++ "`") ++
      a.name ++ ": " ++ tyText ++ ";")

/-- `ScriptFunctionPayloadStruct::args_inline`: the argument fields joined
by newlines and indented. -/
def ScriptFunctionType.argsInline (ctx : CodegenContext) (t : ScriptFunctionType) :
    Except String String :=
  match collectResults (idlArgumentGenerateTS ctx) t.script.args with
  | .error e => .error e
  | .ok parts => .ok (indent (String.intercalate "\n" parts))

/-- `ScriptFunctionPayloadStruct::type_args_inline`. -/
def ScriptFunctionType.typeArgsInline (t : ScriptFunctionType) : String :=
  indent (scriptFnTypeArgs t.script.ty_args)

/-- The optional `args` block of the payload-args type: present iff the
function has arguments. -/
def ScriptFunctionType.argsBlock (ctx : CodegenContext) (t : ScriptFunctionType) :
    Except String String :=
  if t.script.args.isEmpty then .ok ""
  else
    match t.argsInline ctx with
    | .error e => .error e
    | .ok ai => .ok (indent ("args: \x7b\n" ++ ai ++ "\n\x7d;\n") ++ "\n")

/-- The optional `typeArgs` block of the payload-args type. -/
def ScriptFunctionType.typeArgsBlock (t : ScriptFunctionType) : String :=
  if t.script.ty_args.isEmpty then ""
  else indent ("typeArgs: \x7b\n" ++ t.typeArgsInline ++ "\n\x7d;\n") ++ "\n"

/-- The `Codegen` impl for `ScriptFunctionPayloadStruct` (continued):
the full exported payload-args declaration. -/
def ScriptFunctionType.payloadStructGenerateTS (ctx : CodegenContext)
    (t : ScriptFunctionType) : Except String String :=
  match t.argsBlock ctx with
  | .error e => .error e
  | .ok argsPart =>
    .ok (withDocs ("Payload arguments for " ++ t.docLink ++ ".")
      (newFieldsExport t.payloadArgsTypeName (argsPart ++ t.typeArgsBlock)))

/-- One `name: type` fragment of the entry-payload `arguments` tuple. -/
def entryPayloadField (ctx : CodegenContext) (a : IDLArgument) :
    Except String String :=
  match generateIdlTypeWithTypeArgs ctx [] a.ty with
  | .error e => .error e
  | .ok tsType => .ok (a.name ++ ": " ++ tsType)

/-- The body of the entry-payload record declaration, given the generated
per-argument `name: type` fragments: the `type`, `function`, `arguments`,
`type_arguments` fields, in this order. -/
def ScriptFunctionType.entryPayloadBody (t : ScriptFunctionType)
    (parts : List String) : String :=
  withDocs
    ("Script function payload for `" ++ t.fullName ++ "`." ++
      (match t.script.doc with
       | some s => "\n\n" ++ s
       | none => ""))
    (newFieldsExport t.type_name
      (indent (String.intercalate "\n"
        ["readonly type: \"script_function_payload\";",
         "readonly function: \"" ++ t.fullName ++ "\";",
         "readonly arguments: [" ++ String.intercalate ", " parts ++ "];",
         "readonly type_arguments: [" ++
           String.intercalate ", "
             (t.script.ty_args.map (fun a => a ++ ": string")) ++ "];"]) ++ "\n"))

/-- `ScriptFunctionType::generate_entry_payload_struct`: the exported
entry-payload record type with fields `type`, `function`, `arguments`,
`type_arguments`, documented with the full name and the IDL doc string. -/
def ScriptFunctionType.generateEntryPayloadStruct (ctx : CodegenContext)
    (t : ScriptFunctionType) : Except String String :=
  match collectResults (entryPayloadField ctx) t.script.args with
  | .error e => .error e
  | .ok parts => .ok (t.entryPayloadBody parts)

/-- The destructuring parameter of the builder: `{ args, typeArgs }: mod.XArgs`
with only the present blocks listed, or no parameter at all when the
payload struct is not rendered. -/
def ScriptFunctionType.builderParams (t : ScriptFunctionType) : String :=
  if t.shouldRenderPayloadStruct then
    "\x7b " ++
      String.intercalate ", "
        (List.filterMap id
          [if t.script.args.isEmpty then none else some "args",
           if t.script.ty_args.isEmpty then none else some "typeArgs"]) ++
      " \x7d: mod." ++ t.payloadArgsTypeName
  else ""

/-- The `Codegen` impl for `ScriptFunctionType`: the exported payload
builder function.  Its output record literal lists, in this order:
the `type` discriminant, the `function` identifier (via the module id's
`short_str_lossless` rendering), the `type_arguments` array referencing
`typeArgs.<name>`, and the `arguments` array of serialized expressions
rooted at `args.<name>`. -/
def ScriptFunctionType.builderBody (t : ScriptFunctionType)
    (argParts : List String) : String :=
  (match t.script.doc with
   | some doc => genDocString doc
   | none => "") ++
  "export const " ++ t.script.name ++ " = (" ++ t.builderParams ++
  "): payloads." ++ t.type_name ++ " => (\x7b\n" ++
  "  type: \"script_function_payload\",\n" ++
  "  function: \"" ++ t.module.module_id.shortStrLossless ++ "::" ++
    t.script.name ++ "\",\n" ++
  "  type_arguments: [" ++
    String.intercalate ", " (t.script.ty_args.map (fun a => "typeArgs." ++ a)) ++
    "],\n" ++
  "  arguments: [" ++ String.intercalate ", " argParts ++ "],\n" ++
  "\x7d);"

/-- The `Codegen` impl for `ScriptFunctionType` (continued): serialize
each argument rooted at `args.<name>`, then fill the builder template. -/
def ScriptFunctionType.generateTS (ctx : CodegenContext)
    (t : ScriptFunctionType) : Except String String :=
  match collectResults
      (fun a => serializeArg ("args." ++ a.name) a.ty ctx) t.script.args with
  | .error e => .error e
  | .ok argParts => .ok (t.builderBody argParts)

/-! ## Module wrapper generator — the `Codegen` impl for
`Vec<ScriptFunctionType>` in `script_function.rs`.  The environment is a
build-time cargo feature (`address20` → Sui, `address32` → Aptos); it is
modelled as an explicit selector value. -/

/-- The build-time environment selector: cargo features `address20`
(Sui), `address32` (Aptos), or neither. -/
inductive AddrFlag
  | address20
  | address32
  | noFlag
deriving DecidableEq, Repr

/-- One Aptos wrapper-class method for one script function. -/
def aptosMethodText (t : ScriptFunctionType) : String :=
  "\n\tasync " ++ toLowerCamelCase t.script.name ++
  "(args: mod." ++ t.payloadArgsTypeName ++ ") \x7b\n" ++
  "\t\treturn this.sendTransaction(" ++ t.script.name ++ "(args));\n\t\x7d"

/-- The Aptos wrapper class text for a module. -/
def aptosModuleText (moduleName : String) (fns : List ScriptFunctionType) : String :=
  "\ntype TransactionPayload = \x7b\n\ttype: string;\n  function: string;\n" ++
  "  arguments: unknown[];\n  type_arguments: string[];\n\x7d\n\n" ++
  "export class " ++ moduleName ++ "AptosModule \x7b\n" ++
  "\tconstructor(private readonly client: AptosClient, private readonly account: AptosAccount) \x7b\x7d\n" ++
  "\t" ++ String.join (fns.map aptosMethodText) ++ "\n\n" ++
  "\tprivate async sendTransaction(payload: TransactionPayload) \x7b\n" ++
  "    const txnRequest = await this.client.generateTransaction(\n" ++
  "      this.account.address(),\n      this.transformTxnPayload(payload)\n    );\n\n" ++
  "    const signedTxn = await this.client.signTransaction(this.account, txnRequest);\n" ++
  "    const txnResponse = await this.client.submitTransaction(signedTxn);\n\n" ++
  "    return \x7b\n      ...txnResponse,\n      wait: async () => \x7b\n" ++
  "        return this.client.waitForTransaction(txnResponse.hash);\n      \x7d,\n" ++
  "    \x7d;\n  \x7d\n\n" ++
  "  private transformTxnPayload(payload: TransactionPayload): Types.TransactionPayload \x7b\n" ++
  "    const [moduleAddress, moduleName, functionName] = payload.function.split(\"::\");\n" ++
  "    return \x7b\n      ...payload,\n      function: \x7b\n" ++
  "        name: functionName,\n" ++
  "        module: \x7b address: moduleAddress, name: moduleName \x7d,\n" ++
  "      \x7d,\n    \x7d;\n  \x7d\n\x7d"

/-- One Sui wrapper-class method for one script function. -/
def suiMethodText (t : ScriptFunctionType) : String :=
  "\nasync " ++ toLowerCamelCase t.script.name ++
  "(args: mod." ++ t.payloadArgsTypeName ++ ", overrides: SuiCallOverrides) \x7b\n" ++
  "\tconst payload = " ++ t.script.name ++ "(args);\n\n" ++
  "\treturn this.signer.executeMoveCall(\x7b\n" ++
  "\t\t\tmodule: mod.NAME,\n\t\t\tpackageObjectId: mod.ADDRESS,\n" ++
  "\t\t\tfunction: \"" ++ t.script.name ++ "\",\n" ++
  "\t\t\ttypeArguments: payload.type_arguments,\n" ++
  "\t\t\targuments: payload.arguments,\n" ++
  "\t\t\tgasBudget: overrides?.gasBudget ?? this.defaultGasBudget,\n" ++
  "\t\t\t...overrides,\n\t\x7d)\n\x7d"

/-- The Sui wrapper class text for a module. -/
def suiModuleText (moduleName : String) (fns : List ScriptFunctionType) : String :=
  "\ntype SuiCallOverrides = \x7b\n\tgasBudget?: number;\n\tgasPayment?: ObjectId;\n\x7d;\n\n" ++
  "export class " ++ moduleName ++ "SuiModule \x7b\n" ++
  "private readonly defaultGasBudget = 1000;\n\n" ++
  "constructor(private readonly signer: RawSigner) \x7b\x7d\n\n" ++
  String.join (fns.map suiMethodText) ++ "\n\x7d"

/-- The `Codegen` impl for `Vec<ScriptFunctionType>`: an empty module
yields the empty string; otherwise exactly one wrapper class is chosen by
the build-time feature, and neither feature yields the empty string.
The source always returns `Ok`, so this is a plain string. -/
def vecGenerateTS (flag : AddrFlag) (fns : List ScriptFunctionType) : String :=
  match fns with
  | [] => ""
  | firstFn :: _ =>
    let moduleName := toUpperCamelCase firstFn.module.module_id.name
    match flag with
    | .address20 => suiModuleText moduleName fns ++ "\n"
    | .address32 => aptosModuleText moduleName fns ++ "\n"
    | .noFlag => ""

/-! ## Drivers modelled from the spec (the per-module orchestration is
not in the translated source file). -/

/-- Modelled from the spec: the payload-args type is emitted iff
`should_render_payload_struct` holds (spec §4.2: needed iff the function
has at least one argument or one type parameter). -/
def ScriptFunctionType.payloadTypeText (ctx : CodegenContext)
    (t : ScriptFunctionType) : Except String (Option String) :=
  if t.shouldRenderPayloadStruct then (t.payloadStructGenerateTS ctx).map some
  else .ok none

/-- Modelled from the spec: the per-function driver attaches the
offending function's identifier to a failed generation (spec §7: aborts
generation for the enclosing function with the function's identifier and
the offending argument name attached). -/
def ScriptFunctionType.generateForFunction (ctx : CodegenContext)
    (t : ScriptFunctionType) : Except String String :=
  (t.generateTS ctx).mapError
    (fun e => "error generating function `" ++ t.fullName ++ "`: " ++ e)

/-- Modelled from the spec: the builder functions of a module, joined —
emitted regardless of the environment flag. -/
def moduleBuilders (ctx : CodegenContext) (fns : List ScriptFunctionType) :
    Except String String :=
  (collectResults (ScriptFunctionType.generateTS ctx) fns).map
    (String.intercalate "\n\n")

/-- Modelled from the spec: a module's output is its builders followed by
the wrapper selected by the build-time flag. -/
def moduleOutput (flag : AddrFlag) (ctx : CodegenContext)
    (fns : List ScriptFunctionType) : Except String String :=
  (moduleBuilders ctx fns).map (fun s => s ++ vecGenerateTS flag fns)

deriving instance DecidableEq for Except

/-! ## Concrete fixtures used by witnesses and counterexamples -/

/-- A context with no bound type parameters and no registered structs. -/
def ctx0 : CodegenContext := ⟨[], []⟩

/-- The module `0x1::coin` of the end-to-end scenario. -/
def coinModule : IDLModule := ⟨⟨"0x1::coin", "0x1::coin", "coin"⟩⟩

/-- `transfer(to: address, amount: u64)`, no type parameters, no doc. -/
def transferFn : IDLScriptFunction :=
  ⟨"transfer", none, [⟨"to", .prim .addressK⟩, ⟨"amount", .prim .u64⟩], []⟩

/-- The generator unit for `transfer` in `0x1::coin`. -/
def transferType : ScriptFunctionType := ScriptFunctionType.new coinModule transferFn

/-- `swap<T>(amount: u64)`, one type parameter. -/
def swapFn : IDLScriptFunction := ⟨"swap", none, [⟨"amount", .prim .u64⟩], ["T"]⟩

/-- The generator unit for `swap` in `0x1::coin`. -/
def swapType : ScriptFunctionType := ScriptFunctionType.new coinModule swapFn

/-- `init_pool()`: zero arguments and zero type parameters. -/
def degenFn : IDLScriptFunction := ⟨"init_pool", none, [], []⟩

/-- The generator unit for `init_pool` in `0x1::coin`. -/
def degenType : ScriptFunctionType := ScriptFunctionType.new coinModule degenFn

/-- `mint(amount: u64)` carrying an IDL doc string. -/
def mintFn : IDLScriptFunction :=
  ⟨"mint", some "Mints new coins.", [⟨"amount", .prim .u64⟩], []⟩

/-- The generator unit for `mint` in `0x1::coin`. -/
def mintType : ScriptFunctionType := ScriptFunctionType.new coinModule mintFn

/-- An argument whose type references a struct not registered in `ctx0`. -/
def poolArg : IDLArgument := ⟨"pool", .structRef "Pool" []⟩

/-- `stake(pool: Pool)`: its only argument fails type generation and
serialization under `ctx0`. -/
def stakeFn : IDLScriptFunction := ⟨"stake", none, [poolArg], []⟩

/-- The generator unit for `stake` in `0x1::coin`. -/
def stakeType : ScriptFunctionType := ScriptFunctionType.new coinModule stakeFn

/-! ## Helper lemmas about short-circuiting collection -/

theorem strAppend_assoc (a b c : String) : a ++ b ++ c = a ++ (b ++ c) := by
  cases a with
  | mk la =>
    cases b with
    | mk lb =>
      cases c with
      | mk lc =>
        show String.mk (la ++ lb ++ lc) = String.mk (la ++ (lb ++ lc))
        rw [List.append_assoc]

theorem collectResults_ok_length {α β : Type} (f : α → Except String β) :
    ∀ {l : List α} {bs : List β}, collectResults f l = .ok bs →
      bs.length = l.length := by
  intro l
  induction l with
  | nil =>
    intro bs h
    simp only [collectResults] at h
    cases h
    rfl
  | cons a as ih =>
    intro bs h
    unfold collectResults at h
    cases hfa : f a with
    | error e => rw [hfa] at h; cases h
    | ok b =>
      rw [hfa] at h
      cases hrec : collectResults f as with
      | error e => rw [hrec] at h; cases h
      | ok bs2 =>
        rw [hrec] at h
        cases h
        simp [ih hrec]

theorem collectResults_ok_getElem {α β : Type} (f : α → Except String β) :
    ∀ {l : List α} {bs : List β}, collectResults f l = .ok bs →
      ∀ i : Nat, bs[i]? = (l[i]?).bind (fun a => (f a).toOption) := by
  intro l
  induction l with
  | nil =>
    intro bs h i
    simp only [collectResults] at h
    cases h
    simp
  | cons a as ih =>
    intro bs h i
    unfold collectResults at h
    cases hfa : f a with
    | error e => rw [hfa] at h; cases h
    | ok b =>
      rw [hfa] at h
      cases hrec : collectResults f as with
      | error e => rw [hrec] at h; cases h
      | ok bs2 =>
        rw [hrec] at h
        cases h
        cases i with
        | zero => simp [hfa, Except.toOption]
        | succ n => simp [ih hrec n]

theorem collectResults_ok_forall {α β : Type} (f : α → Except String β) :
    ∀ {l : List α} {bs : List β}, collectResults f l = .ok bs →
      ∀ a ∈ l, ∃ b, f a = .ok b := by
  intro l
  induction l with
  | nil => intro bs _ a ha; cases ha
  | cons x xs ih =>
    intro bs h a ha
    unfold collectResults at h
    cases hfx : f x with
    | error e => rw [hfx] at h; cases h
    | ok b =>
      rw [hfx] at h
      cases hrec : collectResults f xs with
      | error e => rw [hrec] at h; cases h
      | ok bs2 =>
        cases ha with
        | head => exact ⟨b, hfx⟩
        | tail _ hmem => exact ih hrec a hmem

theorem collectResults_error_of_mem {α β : Type} (f : α → Except String β)
    {l : List α} {a : α} {e : String} (ha : a ∈ l) (he : f a = .error e) :
    ∃ e2, collectResults f l = .error e2 := by
  cases hc : collectResults f l with
  | error e2 => exact ⟨e2, rfl⟩
  | ok bs =>
    obtain ⟨b, hb⟩ := collectResults_ok_forall f hc a ha
    rw [he] at hb
    cases hb

/-! ## Claims -/

/-- Claim C3: a dedicated argument-payload type is generated iff the
function has at least one argument or at least one type parameter; a
function with zero arguments and zero type parameters emits no payload
type but still emits a valid builder callable with no structured input
(its parameter list is empty and generation succeeds). -/
theorem c3_payload_type_condition (ctx : CodegenContext) (t : ScriptFunctionType) :
    (t.shouldRenderPayloadStruct = false ↔
      t.script.args = [] ∧ t.script.ty_args = [])
    ∧ (t.script.args = [] → t.script.ty_args = [] →
        t.payloadTypeText ctx = .ok none
        ∧ t.builderParams = ""
        ∧ t.generateTS ctx = .ok (t.builderBody [])) := by
  constructor
  · simp [ScriptFunctionType.shouldRenderPayloadStruct, List.isEmpty_iff]
  · intro h1 h2
    refine ⟨?_, ?_, ?_⟩
    · simp [ScriptFunctionType.payloadTypeText,
        ScriptFunctionType.shouldRenderPayloadStruct, h1, h2]
    · simp [ScriptFunctionType.builderParams,
        ScriptFunctionType.shouldRenderPayloadStruct, h1, h2]
    · simp [ScriptFunctionType.generateTS, h1, collectResults]

/-- Witness for C3 at the concrete degenerate function `init_pool()`. -/
theorem c3_witness :
    degenType.payloadTypeText ctx0 = .ok none
    ∧ degenType.builderParams = ""
    ∧ degenType.generateTS ctx0 = .ok (degenType.builderBody []) :=
  (c3_payload_type_condition ctx0 degenType).2 rfl rfl

/-- Claim C10: for a module with no script functions the wrapper
generator returns the empty string under every build-time flag. -/
theorem c10_empty_module_empty_wrapper :
    ∀ flag : AddrFlag, vecGenerateTS flag [] = "" := by
  intro flag
  cases flag <;> rfl

/-- Claim C9: the wrapper method generated for either environment always
declares its parameter with the payload-args type name `mod.<Pascal>Args`,
even for a function with zero arguments and zero type parameters — the
case in which no payload-args declaration is emitted. -/
theorem c9_wrapper_param_uses_payload_args_type (t : ScriptFunctionType) :
    (∃ pre post, aptosMethodText t =
        pre ++ ("(args: mod." ++ t.payloadArgsTypeName) ++ post) ∧
    (∃ pre2 post2, suiMethodText t =
        pre2 ++ ("(args: mod." ++ t.payloadArgsTypeName) ++ post2) ∧
    (t.script.args = [] → t.script.ty_args = [] →
        t.shouldRenderPayloadStruct = false) := by
  refine ⟨⟨"\n\tasync " ++ toLowerCamelCase t.script.name,
      ") \x7b\n\t\treturn this.sendTransaction(" ++ t.script.name ++
        "(args));\n\t\x7d",
      ?_⟩,
    ⟨"\nasync " ++ toLowerCamelCase t.script.name,
      ", overrides: SuiCallOverrides) \x7b\n\tconst payload = " ++
        t.script.name ++
        "(args);\n\n\treturn this.signer.executeMoveCall(\x7b\n\t\t\tmodule: mod.NAME,\n\t\t\tpackageObjectId: mod.ADDRESS,\n\t\t\tfunction: \"" ++
        t.script.name ++
        "\",\n\t\t\ttypeArguments: payload.type_arguments,\n\t\t\targuments: payload.arguments,\n\t\t\tgasBudget: overrides?.gasBudget ?? this.defaultGasBudget,\n\t\t\t...overrides,\n\t\x7d)\n\x7d",
      ?_⟩, ?_⟩
  · simp [aptosMethodText, strAppend_assoc]
  · simp [suiMethodText, strAppend_assoc]
  · intro h1 h2
    simp [ScriptFunctionType.shouldRenderPayloadStruct, h1, h2]

/-- Witness for C9 at `init_pool()`: the payload struct is not rendered,
yet the Aptos wrapper method names `mod.InitPoolArgs`. -/
theorem c9_witness :
    degenType.shouldRenderPayloadStruct = false
    ∧ ∃ pre post, aptosMethodText degenType =
        pre ++ ("(args: mod." ++ degenType.payloadArgsTypeName) ++ post :=
  ⟨(c9_wrapper_param_uses_payload_args_type degenType).2.2 rfl rfl,
   (c9_wrapper_param_uses_payload_args_type degenType).1⟩

set_option maxRecDepth 8000 in
/-- Claim C5: the module wrapper is selected by the single build-time
flag — `address20` yields only the Sui wrapper text, `address32` only the
Aptos wrapper text, neither yields the empty string — while the builders
portion of a module's output is identical under every flag; concretely,
the Sui output contains no `AptosModule` text and vice versa. -/
theorem c5_environment_flag_exclusivity (ctx : CodegenContext)
    (fns : List ScriptFunctionType) (f0 : ScriptFunctionType)
    (rest : List ScriptFunctionType) (hne : fns = f0 :: rest) :
    vecGenerateTS .address20 fns =
      suiModuleText (toUpperCamelCase f0.module.module_id.name) fns ++ "\n"
    ∧ vecGenerateTS .address32 fns =
      aptosModuleText (toUpperCamelCase f0.module.module_id.name) fns ++ "\n"
    ∧ vecGenerateTS .noFlag fns = ""
    ∧ (∀ fl fl' s s', moduleOutput fl ctx fns = .ok s →
        moduleOutput fl' ctx fns = .ok s' →
        ∃ b, moduleBuilders ctx fns = .ok b
          ∧ s = b ++ vecGenerateTS fl fns
          ∧ s' = b ++ vecGenerateTS fl' fns)
    ∧ occursIn "AptosModule" (vecGenerateTS .address20 [transferType]) = false
    ∧ occursIn "SuiModule" (vecGenerateTS .address32 [transferType]) = false := by
  subst hne
  refine ⟨rfl, rfl, rfl, ?_, by decide, by decide⟩
  intro fl fl' s s' h h'
  cases hb : moduleBuilders ctx (f0 :: rest) with
  | error e =>
    rw [moduleOutput, hb] at h
    cases h
  | ok b =>
    rw [moduleOutput, hb] at h
    rw [moduleOutput, hb] at h'
    simp only [Except.map] at h h'
    cases h
    cases h'
    exact ⟨b, rfl, rfl, rfl⟩

/-- Witness for C5: with neither feature selected, the wrapper output for
the sample module is empty. -/
theorem c5_witness : vecGenerateTS AddrFlag.noFlag [transferType] = "" :=
  (c5_environment_flag_exclusivity ctx0 [transferType] transferType [] rfl).2.2.1

set_option maxRecDepth 8000 in
/-- Claim C1 counterexample: at the concrete `transfer` function, the
generated payload record type declaration lists `readonly arguments`
before `readonly type_arguments` — i.e. NOT in the builder's field order
(tag, function, type-argument list, argument list) that the claim says
the declaration shares. -/
theorem c1_counterexample :
    (transferType.generateEntryPayloadStruct ctx0).map
      (fun s =>
        (appearsBefore "readonly arguments:" "readonly type_arguments:" s,
         appearsBefore "readonly type_arguments:" "readonly arguments:" s))
      = .ok (true, false) := by
  decide

/-- Claim C1 (amended): the builder is a pure function producing a payload
record with exactly four fields in the order `type` (the literal
discriminant), `function` (module id `::` function name), the serialized
type-argument references, then the serialized argument expressions; the
generated payload record type declaration lists the same four fields but
with `arguments` before `type_arguments`. -/
theorem c1_payload_field_order (ctx : CodegenContext) (t : ScriptFunctionType)
    {es ps : List String}
    (h1 : collectResults (fun a => serializeArg ("args." ++ a.name) a.ty ctx)
        t.script.args = .ok es)
    (h2 : collectResults (entryPayloadField ctx) t.script.args = .ok ps) :
    t.generateTS ctx = .ok (
      (match t.script.doc with
       | some doc => genDocString doc
       | none => "") ++
      "export const " ++ t.script.name ++ " = (" ++ t.builderParams ++
      "): payloads." ++ t.type_name ++ " => (\x7b\n" ++
      "  type: \"script_function_payload\",\n" ++
      "  function: \"" ++ t.module.module_id.shortStrLossless ++ "::" ++
        t.script.name ++ "\",\n" ++
      "  type_arguments: [" ++
        String.intercalate ", "
          (t.script.ty_args.map (fun a => "typeArgs." ++ a)) ++ "],\n" ++
      "  arguments: [" ++ String.intercalate ", " es ++ "],\n" ++
      "\x7d);")
    ∧ t.generateEntryPayloadStruct ctx = .ok (
      withDocs
        ("Script function payload for `" ++ t.fullName ++ "`." ++
          (match t.script.doc with
           | some s => "\n\n" ++ s
           | none => ""))
        (newFieldsExport t.type_name
          (indent (String.intercalate "\n"
            ["readonly type: \"script_function_payload\";",
             "readonly function: \"" ++ t.fullName ++ "\";",
             "readonly arguments: [" ++ String.intercalate ", " ps ++ "];",
             "readonly type_arguments: [" ++
               String.intercalate ", "
                 (t.script.ty_args.map (fun a => a ++ ": string")) ++
               "];"]) ++ "\n"))) := by
  constructor
  · unfold ScriptFunctionType.generateTS
    rw [h1]
    rfl
  · unfold ScriptFunctionType.generateEntryPayloadStruct
    rw [h2]
    rfl

/-- Witness for C1 at `transfer`: both serializations succeed and the two
generated texts take the stated shapes. -/
theorem c1_witness :
    transferType.generateTS ctx0 =
      .ok (transferType.builderBody ["args.to", "args.amount"])
    ∧ transferType.generateEntryPayloadStruct ctx0 =
      .ok (transferType.entryPayloadBody ["to: address", "amount: string"]) :=
  ⟨(c1_payload_field_order ctx0 transferType rfl rfl).1,
   (c1_payload_field_order ctx0 transferType rfl rfl).2⟩

/-- Claim C2: the generated payload type's field order, the builder's
argument-array order, and the wrapper method's forwarding all preserve
the IDL argument order `[a1, ..., an]` for every `n ≥ 0`: the serialized
argument list and the payload-args field list have one entry per IDL
argument, index for index, and the wrapper method of each environment
(Aptos and Sui alike) forwards the whole `args` record to the builder
unchanged. -/
theorem c2_argument_order_preserved (ctx : CodegenContext)
    (t : ScriptFunctionType) {es ps : List String}
    (h1 : collectResults (fun a => serializeArg ("args." ++ a.name) a.ty ctx)
        t.script.args = .ok es)
    (h2 : collectResults (idlArgumentGenerateTS ctx) t.script.args = .ok ps) :
    es.length = t.script.args.length
    ∧ (∀ i : Nat, es[i]? = (t.script.args[i]?).bind
        (fun a => (serializeArg ("args." ++ a.name) a.ty ctx).toOption))
    ∧ t.generateTS ctx = .ok (t.builderBody es)
    ∧ ps.length = t.script.args.length
    ∧ (∀ i : Nat, ps[i]? = (t.script.args[i]?).bind
        (fun a => (idlArgumentGenerateTS ctx a).toOption))
    ∧ t.argsInline ctx = .ok (indent (String.intercalate "\n" ps))
    ∧ aptosMethodText t =
        "\n\tasync " ++ toLowerCamelCase t.script.name ++ "(args: mod." ++
        t.payloadArgsTypeName ++
        ") \x7b\n\t\treturn this.sendTransaction(" ++ t.script.name ++
        "(args));\n\t\x7d"
    ∧ suiMethodText t =
        "\nasync " ++ toLowerCamelCase t.script.name ++ "(args: mod." ++
        t.payloadArgsTypeName ++
        ", overrides: SuiCallOverrides) \x7b\n\tconst payload = " ++
        t.script.name ++
        "(args);\n\n\treturn this.signer.executeMoveCall(\x7b\n\t\t\tmodule: mod.NAME,\n\t\t\tpackageObjectId: mod.ADDRESS,\n\t\t\tfunction: \"" ++
        t.script.name ++
        "\",\n\t\t\ttypeArguments: payload.type_arguments,\n\t\t\targuments: payload.arguments,\n\t\t\tgasBudget: overrides?.gasBudget ?? this.defaultGasBudget,\n\t\t\t...overrides,\n\t\x7d)\n\x7d" := by
  refine ⟨collectResults_ok_length _ h1, collectResults_ok_getElem _ h1,
    ?_, collectResults_ok_length _ h2, collectResults_ok_getElem _ h2,
    ?_, ?_, ?_⟩
  · unfold ScriptFunctionType.generateTS
    rw [h1]
  · unfold ScriptFunctionType.argsInline
    rw [h2]
  · simp [aptosMethodText, strAppend_assoc]
  · simp [suiMethodText, strAppend_assoc]

/-- Witness for C2 at `transfer`: both hypotheses hold and the builder
output lists `args.to` then `args.amount`. -/
theorem c2_witness :
    transferType.generateTS ctx0 =
      .ok (transferType.builderBody ["args.to", "args.amount"]) :=
  (c2_argument_order_preserved ctx0 transferType rfl rfl).2.2.1

set_option maxRecDepth 8000 in
/-- Claim C4: for `transfer(to: address, amount: u64)` in `0x1::coin`
with no type parameters, generation produces the payload type
`TransferArgs` whose `args` block lists `to` then `amount` (with the
u64→string rule applied), and a builder named `transfer` whose output has
`function: "0x1::coin::transfer"`, `type_arguments: []` and
`arguments: [args.to, args.amount]` in that order. -/
theorem c4_transfer_scenario :
    transferType.payloadArgsTypeName = "TransferArgs"
    ∧ transferType.payloadStructGenerateTS ctx0 =
      .ok "/** Payload arguments for \x7b@link entry.transfer\x7d. */\nexport type TransferArgs = \x7b\n  args: \x7b\n    /** IDL type: `Address` */\n    to: address;\n    /** IDL type: `U64` */\n    amount: string;\n  \x7d;\n\n\x7d;"
    ∧ transferType.generateTS ctx0 =
      .ok "export const transfer = (\x7b args \x7d: mod.TransferArgs): payloads.Transfer => (\x7b\n  type: \"script_function_payload\",\n  function: \"0x1::coin::transfer\",\n  type_arguments: [],\n  arguments: [args.to, args.amount],\n\x7d);" := by
  refine ⟨rfl, by decide, by decide⟩

set_option maxRecDepth 8000 in
/-- Claim C6: for `swap<T>(amount: u64)` the payload type carries both an
`args.amount` field and a `typeArgs.T: string` field, and the builder's
`type_arguments` array is exactly `[typeArgs.T]`. -/
theorem c6_swap_generics :
    (swapType.payloadStructGenerateTS ctx0).map
      (fun s => (occursIn "amount: string;" s, occursIn "typeArgs: \x7b" s,
                 occursIn "T: string;" s)) = .ok (true, true, true)
    ∧ swapType.generateTS ctx0 =
      .ok "export const swap = (\x7b args, typeArgs \x7d: mod.SwapArgs): payloads.Swap => (\x7b\n  type: \"script_function_payload\",\n  function: \"0x1::coin::swap\",\n  type_arguments: [typeArgs.T],\n  arguments: [args.amount],\n\x7d);"
    ∧ swapFn.ty_args = ["T"] := by
  refine ⟨by decide, by decide, rfl⟩

set_option maxRecDepth 8000 in
/-- Claim C7 counterexample: `mint` has an IDL doc string and its
payload-args type IS emitted, yet that generated payload type does not
contain the doc text anywhere — the doc is not propagated to it. -/
theorem c7_counterexample :
    mintType.script.doc = some "Mints new coins."
    ∧ mintType.shouldRenderPayloadStruct = true
    ∧ (mintType.payloadStructGenerateTS ctx0).map
        (occursIn "Mints new coins.") = .ok false := by
  refine ⟨rfl, rfl, by decide⟩

/-- Claim C7 (amended): the IDL doc string is attached to the builder
function (as its leading doc comment) and to the entry-payload record
type's doc comment; the conditionally emitted payload-args type instead
carries only the fixed cross-reference docstring
`Payload arguments for {@link entry.<name>}.`, without the IDL doc text. -/
theorem c7_doc_propagation (ctx : CodegenContext) (t : ScriptFunctionType)
    (d : String) (hd : t.script.doc = some d)
    {es ps : List String} {ab : String}
    (h1 : collectResults (fun a => serializeArg ("args." ++ a.name) a.ty ctx)
        t.script.args = .ok es)
    (h2 : collectResults (entryPayloadField ctx) t.script.args = .ok ps)
    (h3 : t.argsBlock ctx = .ok ab) :
    t.generateTS ctx = .ok (
      genDocString d ++
      "export const " ++ t.script.name ++ " = (" ++ t.builderParams ++
      "): payloads." ++ t.type_name ++
      " => (\x7b\n  type: \"script_function_payload\",\n  function: \"" ++
      t.module.module_id.shortStrLossless ++ "::" ++ t.script.name ++
      "\",\n  type_arguments: [" ++
      String.intercalate ", "
        (t.script.ty_args.map (fun a => "typeArgs." ++ a)) ++
      "],\n  arguments: [" ++ String.intercalate ", " es ++ "],\n\x7d);")
    ∧ t.generateEntryPayloadStruct ctx = .ok (
      withDocs
        ("Script function payload for `" ++ t.fullName ++ "`." ++
          ("\n\n" ++ d))
        (newFieldsExport t.type_name
          (indent (String.intercalate "\n"
            ["readonly type: \"script_function_payload\";",
             "readonly function: \"" ++ t.fullName ++ "\";",
             "readonly arguments: [" ++ String.intercalate ", " ps ++ "];",
             "readonly type_arguments: [" ++
               String.intercalate ", "
                 (t.script.ty_args.map (fun a => a ++ ": string")) ++
               "];"]) ++ "\n")))
    ∧ t.payloadStructGenerateTS ctx = .ok (
      withDocs ("Payload arguments for " ++ t.docLink ++ ".")
        (newFieldsExport t.payloadArgsTypeName (ab ++ t.typeArgsBlock))) := by
  refine ⟨?_, ?_, ?_⟩
  · unfold ScriptFunctionType.generateTS
    rw [h1]
    simp only [ScriptFunctionType.builderBody, hd]
    simp [strAppend_assoc]
  · unfold ScriptFunctionType.generateEntryPayloadStruct
    rw [h2]
    simp only [ScriptFunctionType.entryPayloadBody, hd]
  · unfold ScriptFunctionType.payloadStructGenerateTS
    rw [h3]

/-- Witness for C7 at `mint`: the emitted payload-args type carries only
the fixed cross-reference docstring. -/
theorem c7_witness :
    mintType.payloadStructGenerateTS ctx0 =
      .ok (withDocs ("Payload arguments for " ++ mintType.docLink ++ ".")
        (newFieldsExport mintType.payloadArgsTypeName
          ("  args: \x7b\n    /** IDL type: `U64` */\n    amount: string;\n  \x7d;\n\n"
            ++ mintType.typeArgsBlock))) :=
  (c7_doc_propagation ctx0 mintType "Mints new coins." rfl rfl rfl rfl).2.2

/-- Claim C8: if serializing (or generating the type text of) any
argument fails, the whole generation for that function fails with an
error — no `ok` result, hence no partial or placeholder output — and the
error names the offending argument expression, while the per-function
driver attaches the function identifier. -/
theorem c8_error_propagation (ctx : CodegenContext) (t : ScriptFunctionType)
    (a : IDLArgument) (e : String)
    (ha : a ∈ t.script.args)
    (he : serializeArgCore ctx ("args." ++ a.name) a.ty = .error e) :
    serializeArg ("args." ++ a.name) a.ty ctx =
      .error ("failed to serialize `args." ++ a.name ++ "`: " ++ e)
    ∧ (∀ s, t.generateTS ctx ≠ .ok s)
    ∧ (∃ e2, t.generateForFunction ctx =
        .error ("error generating function `" ++ t.fullName ++ "`: " ++ e2))
    ∧ (∀ e3, generateIdlTypeWithTypeArgs ctx [] a.ty = .error e3 →
        ∀ s, t.generateEntryPayloadStruct ctx ≠ .ok s) := by
  have hsa : serializeArg ("args." ++ a.name) a.ty ctx =
      .error ("failed to serialize `args." ++ a.name ++ "`: " ++ e) := by
    unfold serializeArg
    rw [he]
    simp [Except.mapError, ← strAppend_assoc]
  refine ⟨hsa, ?_, ?_, ?_⟩
  · intro s hs
    unfold ScriptFunctionType.generateTS at hs
    cases hc : collectResults
        (fun a => serializeArg ("args." ++ a.name) a.ty ctx) t.script.args with
    | error e2 => rw [hc] at hs; cases hs
    | ok bs =>
      obtain ⟨b, hb⟩ := collectResults_ok_forall _ hc a ha
      rw [hsa] at hb
      cases hb
  · cases hc : collectResults
        (fun a => serializeArg ("args." ++ a.name) a.ty ctx) t.script.args with
    | error e2 =>
      refine ⟨e2, ?_⟩
      unfold ScriptFunctionType.generateForFunction ScriptFunctionType.generateTS
      rw [hc]
      rfl
    | ok bs =>
      obtain ⟨b, hb⟩ := collectResults_ok_forall _ hc a ha
      rw [hsa] at hb
      cases hb
  · intro e3 hg s hs
    unfold ScriptFunctionType.generateEntryPayloadStruct at hs
    cases hc : collectResults (entryPayloadField ctx) t.script.args with
    | error e2 => rw [hc] at hs; cases hs
    | ok ps =>
      obtain ⟨b, hb⟩ := collectResults_ok_forall _ hc a ha
      unfold entryPayloadField at hb
      rw [hg] at hb
      cases hb

/-- Witness for C8 at `stake(pool: Pool)` with no registered structs:
its only argument's serialization fails with an error naming the rooted
argument expression. -/
theorem c8_witness :
    serializeArg ("args." ++ poolArg.name) poolArg.ty ctx0 =
      .error ("failed to serialize `args." ++ poolArg.name ++ "`: " ++
        "unknown struct `Pool`") :=
  (c8_error_propagation ctx0 stakeType poolArg "unknown struct `Pool`"
    (List.Mem.head _) rfl).1

end MoveTS
